import Mathlib

/-!
Verification of the FinTrackr backend token-lifecycle subsystem.

The definitions below are a shallow embedding of the TypeScript source:
  - `src/utils/jwt.ts` (Token Codec, `part_008`),
  - `src/controllers/authController.ts` (Redis/expiring-cache variant),
  - the durable-record and stateless controller variants (`part_009`),
  - `src/middleware/auth.ts` (Authentication Gate),
  - `src/config/passport.ts` (External Identity Linker).

Time is a `Nat` of seconds.  A signed JWT is modelled symbolically: the
token value records the payload, the issued-at and expiry instants, and
the secret that signed it; verification compares the stored secret with
the verifying secret (an unforgeable-MAC model) and then checks expiry,
in that order, exactly as `jsonwebtoken` does.
-/

inductive TokenType
  | access
  | refresh
deriving DecidableEq, Repr

/-- The decoded claims of a token, mirroring `JWTPayload` in `src/utils/jwt.ts`:
`userId`, `email`, and the `type` discriminator. -/
structure JWTPayload where
  userId : String
  email : String
  type : TokenType
deriving DecidableEq, Repr

/-- A signed token string, modelled symbolically: payload fields plus
`iat`/`exp` (as `jsonwebtoken` embeds them) plus the secret used to sign,
standing in for the HMAC signature. Two tokens are equal exactly when
`jwt.sign` would produce the same string. -/
structure Token where
  userId : String
  email : String
  type : TokenType
  iat : Nat
  exp : Nat
  secret : String
deriving DecidableEq, Repr

inductive JwtError
  | invalidSignature
  | expired
deriving DecidableEq, Repr

/-- Embeds `jwt.verify(token, secret)`: signature is checked first, then expiry;
on success the decoded payload is returned. -/
def jwtVerify (t : Token) (secret : String) (now : Nat) : Except JwtError JWTPayload :=
  if t.secret ≠ secret then .error .invalidSignature
  else if t.exp ≤ now then .error .expired
  else .ok ⟨t.userId, t.email, t.type⟩

/-- The relevant fields of the validated environment (`src/config/env.ts`):
two signing secrets and the two expiry windows (in seconds). -/
structure Env where
  JWT_SECRET : String
  JWT_REFRESH_SECRET : String
  JWT_EXPIRES_IN : Nat
  JWT_REFRESH_EXPIRES_IN : Nat
deriving DecidableEq, Repr

/-- Embeds `generateAccessToken` from `src/utils/jwt.ts`: sign
the payload extended with the kind tag `access`, with `JWT_SECRET` and `JWT_EXPIRES_IN`. -/
def generateAccessToken (env : Env) (now : Nat) (userId email : String) : Token :=
  { userId := userId, email := email, type := .access,
    iat := now, exp := now + env.JWT_EXPIRES_IN, secret := env.JWT_SECRET }

/-- Embeds `generateRefreshToken` from `src/utils/jwt.ts`: sign
the payload extended with the kind tag `refresh`, with `JWT_REFRESH_SECRET` and
`JWT_REFRESH_EXPIRES_IN`. -/
def generateRefreshToken (env : Env) (now : Nat) (userId email : String) : Token :=
  { userId := userId, email := email, type := .refresh,
    iat := now, exp := now + env.JWT_REFRESH_EXPIRES_IN, secret := env.JWT_REFRESH_SECRET }

/-- Embeds `verifyAccessToken` from `src/utils/jwt.ts`: `jwt.verify` against
`JWT_SECRET`; note it performs no check of the payload `type` field. -/
def verifyAccessToken (env : Env) (t : Token) (now : Nat) : Except JwtError JWTPayload :=
  jwtVerify t env.JWT_SECRET now

/-- Embeds `verifyRefreshToken` from `src/utils/jwt.ts`: `jwt.verify` against
`JWT_REFRESH_SECRET`; it performs no check of the payload `type` field. -/
def verifyRefreshToken (env : Env) (t : Token) (now : Nat) : Except JwtError JWTPayload :=
  jwtVerify t env.JWT_REFRESH_SECRET now

/-- Embeds `generateTokenPair` from `src/utils/jwt.ts`. -/
def generateTokenPair (env : Env) (now : Nat) (userId email : String) : Token × Token :=
  (generateAccessToken env now userId email, generateRefreshToken env now userId email)

/-- Dispatch of signing on the token kind, as the Token Codec `sign(claims, kind)`. -/
def signKind (env : Env) (kind : TokenType) (now : Nat) (userId email : String) : Token :=
  match kind with
  | .access => generateAccessToken env now userId email
  | .refresh => generateRefreshToken env now userId email

/-- Dispatch of verification on the expected kind, as the Token Codec
`verify(tokenString, expectedKind)`. -/
def verifyKind (env : Env) (kind : TokenType) (t : Token) (now : Nat) :
    Except JwtError JWTPayload :=
  match kind with
  | .access => verifyAccessToken env t now
  | .refresh => verifyRefreshToken env t now

/-- The expiry window the codec embeds for each kind. -/
def expiresInFor (env : Env) (kind : TokenType) : Nat :=
  match kind with
  | .access => env.JWT_EXPIRES_IN
  | .refresh => env.JWT_REFRESH_EXPIRES_IN

/-- C3: round-trip of the Token Codec.  For every claims payload
(subject id, email) and every kind, verifying the token produced by
signing those claims with that kind, against the same kind, succeeds and
returns the same claims, provided the embedded expiry is in the future. -/
theorem codec_roundtrip (env : Env) (kind : TokenType) (userId email : String)
    (tSign tVerify : Nat) (hfuture : tVerify < tSign + expiresInFor env kind) :
    verifyKind env kind (signKind env kind tSign userId email) tVerify =
      .ok ⟨userId, email, kind⟩ := by
  cases kind <;>
    simp_all [verifyKind, signKind, verifyAccessToken, verifyRefreshToken,
      generateAccessToken, generateRefreshToken, jwtVerify, expiresInFor,
      Nat.not_le_of_lt, Nat.lt_irrefl]

/-- Witness for C3 at a concrete input. -/
theorem codec_roundtrip_witness :
    (0 : Nat) < 0 + (Env.mk "as" "rs" 900 604800).JWT_EXPIRES_IN ∧
      verifyKind (Env.mk "as" "rs" 900 604800) .access
        (signKind (Env.mk "as" "rs" 900 604800) .access 0 "u1" "a@b.c") 0 =
        .ok ⟨"u1", "a@b.c", .access⟩ :=
  ⟨by decide, codec_roundtrip (Env.mk "as" "rs" 900 604800) .access "u1" "a@b.c" 0 0
    (by decide)⟩

/-- C4: assuming the access secret and refresh secret are distinct, a token
produced by `generateAccessToken` is rejected by `verifyRefreshToken` with a
signature error, at every verification time — even though
`verifyRefreshToken` performs no check of the payload `type` field. -/
theorem access_token_never_verifies_as_refresh (env : Env)
    (hdistinct : env.JWT_SECRET ≠ env.JWT_REFRESH_SECRET)
    (userId email : String) (tSign tVerify : Nat) :
    verifyRefreshToken env (generateAccessToken env tSign userId email) tVerify =
      .error .invalidSignature := by
  simp [verifyRefreshToken, generateAccessToken, jwtVerify, hdistinct]

/-- Witness for C4 at a concrete input. -/
theorem access_token_never_verifies_as_refresh_witness :
    (Env.mk "as" "rs" 900 604800).JWT_SECRET ≠
        (Env.mk "as" "rs" 900 604800).JWT_REFRESH_SECRET ∧
      verifyRefreshToken (Env.mk "as" "rs" 900 604800)
        (generateAccessToken (Env.mk "as" "rs" 900 604800) 0 "u1" "a@b.c") 5 =
        .error .invalidSignature :=
  ⟨by decide, access_token_never_verifies_as_refresh (Env.mk "as" "rs" 900 604800)
    (by decide) "u1" "a@b.c" 0 5⟩

/-!
Identity Store and Credential Verifier.
-/

/-- Modelled from the spec: the Credential Verifier (`src/utils/bcrypt.ts` is
not present under `src/`; only its callers are).  `hash(password)` uses a
slow, salted one-way function with a per-call random salt; the symbolic model
records the salt and the hashed password, and `verify` compares the submitted
password against the hash, as bcrypt does. -/
structure BcryptHash where
  salt : Nat
  ofPassword : String
deriving DecidableEq, Repr

/-- Modelled from the spec: `hash(password) -> hash` with a per-call salt. -/
def hashPassword (salt : Nat) (password : String) : BcryptHash :=
  ⟨salt, password⟩

/-- Modelled from the spec: `verify(password, hash) -> bool`. -/
def comparePassword (password : String) (h : BcryptHash) : Bool :=
  password = h.ofPassword

/-- A row of the Prisma `user` table, with the fields the auth subsystem
reads: unique `id`, unique `email`, `name`, nullable `passwordHash`,
nullable unique `googleId`. -/
structure User where
  id : String
  email : String
  name : String
  passwordHash : Option BcryptHash
  googleId : Option String
deriving DecidableEq, Repr

/-- Embeds `prisma.user.findUnique({ where: { email } })`. -/
def findUserByEmail (users : List User) (email : String) : Option User :=
  users.find? (fun u => u.email = email)

/-- Embeds `prisma.user.findUnique({ where: { id } })`. -/
def findUserById (users : List User) (id : String) : Option User :=
  users.find? (fun u => u.id = id)

/-- Embeds `prisma.user.findUnique({ where: { googleId } })`. -/
def findUserByGoogleId (users : List User) (googleId : String) : Option User :=
  users.find? (fun u => u.googleId = some googleId)

/-!
Token Store, expiring-cache strategy: the Redis client of
`src/config/redis.ts` as used by `src/controllers/authController.ts`.
A cache state is a list of keyed entries with an absolute expiry instant;
`setEx` overwrites the single entry for its key.
-/

structure CacheEntry where
  key : String
  value : Token
  expiresAt : Nat
deriving DecidableEq, Repr

abbrev RedisState := List CacheEntry

/-- Embeds `redisClient.setEx(key, ttl, value)`: the key is (re)written with a fresh
TTL, replacing any previous entry for that key. -/
def redisSetEx (st : RedisState) (key : String) (ttl : Nat) (now : Nat) (v : Token) :
    RedisState :=
  ⟨key, v, now + ttl⟩ :: st.filter (fun e => e.key ≠ key)

/-- Embeds `redisClient.get(key)`: `nil` once the TTL has elapsed. -/
def redisGet (now : Nat) (key : String) (st : RedisState) : Option Token :=
  match st.find? (fun e => e.key = key) with
  | some e => if now < e.expiresAt then some e.value else none
  | none => none

/-- Embeds `redisClient.del(key)`. -/
def redisDel (key : String) (st : RedisState) : RedisState :=
  st.filter (fun e => e.key ≠ key)

/-- The Redis key `refresh_token:<userId>` used by the cache-variant
controller. -/
def refreshKey (userId : String) : String :=
  "refresh_token:" ++ userId

/-!
The auth controller, expiring-cache (Redis) variant:
`src/src/controllers/authController.ts`.  Zod body parsing is embedded as a
boolean pre-check (`parse` throws on the first schema violation and the
handler returns 400); the email-format test of `z.string().email()` is an
external library predicate, passed in as `emailOk`.  Prisma id generation is
passed in as `newId`.
-/

inductive RegisterResult
  | validationFailed
  | emailTaken
  | ok (user : User) (accessToken refreshToken : Token)
deriving DecidableEq, Repr

inductive LoginResult
  | validationFailed
  | invalidCredentials
  | ok (user : User) (accessToken refreshToken : Token)
deriving DecidableEq, Repr

inductive RefreshResult
  | validationFailed
  | invalidTokenType
  | invalidRefresh
  | ok (accessToken refreshToken : Token)
deriving DecidableEq, Repr

inductive LogoutResult
  | accessTokenRequired
  | invalidToken
  | ok
deriving DecidableEq, Repr

/-- The seven-day TTL `7 * 24 * 60 * 60` the controllers attach to a stored
refresh token. -/
def sevenDays : Nat := 7 * 24 * 60 * 60

/-- Embeds `registerSchema.parse`: email format, password at least 8 characters,
name at least 1 character. -/
def registerParseOk (emailOk : String → Bool) (email password name : String) : Bool :=
  emailOk email && decide (8 ≤ password.length) && decide (1 ≤ name.length)

/-- Embeds `loginSchema.parse`: email format, password at least 1 character. -/
def loginParseOk (emailOk : String → Bool) (email password : String) : Bool :=
  emailOk email && decide (1 ≤ password.length)

/-- Embeds `register` of the cache variant: reject on schema failure, 409 if the
email exists, otherwise hash the password, create the user, generate the
token pair and `setEx` the refresh token under `refresh_token:<id>`. -/
def registerCache (emailOk : String → Bool) (env : Env) (now salt : Nat)
    (newId email password name : String) (users : List User) (st : RedisState) :
    RegisterResult × List User × RedisState :=
  if ¬ registerParseOk emailOk email password name then (.validationFailed, users, st)
  else match findUserByEmail users email with
  | some _ => (.emailTaken, users, st)
  | none =>
      let user : User :=
        { id := newId, email := email, name := name,
          passwordHash := some (hashPassword salt password), googleId := none }
      let tokens := generateTokenPair env now user.id user.email
      (.ok user tokens.1 tokens.2, users ++ [user],
        redisSetEx st (refreshKey user.id) sevenDays now tokens.2)

/-- Embeds `login` of the cache variant: schema check, user lookup, password check
(the unknown-email, missing-hash and wrong-password branches all answer 401
`Invalid credentials`), then token pair generation and `setEx`. -/
def loginCache (emailOk : String → Bool) (env : Env) (now : Nat)
    (email password : String) (users : List User) (st : RedisState) :
    LoginResult × RedisState :=
  if ¬ loginParseOk emailOk email password then (.validationFailed, st)
  else match findUserByEmail users email with
  | none => (.invalidCredentials, st)
  | some user =>
      match user.passwordHash with
      | none => (.invalidCredentials, st)
      | some h =>
          if ¬ comparePassword password h then (.invalidCredentials, st)
          else
            let tokens := generateTokenPair env now user.id user.email
            (.ok user tokens.1 tokens.2,
              redisSetEx st (refreshKey user.id) sevenDays now tokens.2)

/-- Embeds `refreshToken` of the cache variant: verify the presented token against
the refresh secret (a verification failure lands in the catch-all 401
`Invalid refresh token`), check that the payload kind equals `refresh`, compare with
the token stored under `refresh_token:<userId>`, then generate a new pair
and overwrite the key. -/
def refreshCache (env : Env) (now : Nat) (tok : Token) (st : RedisState) :
    RefreshResult × RedisState :=
  match verifyRefreshToken env tok now with
  | .error _ => (.invalidRefresh, st)
  | .ok payload =>
      if payload.type ≠ .refresh then (.invalidTokenType, st)
      else match redisGet now (refreshKey payload.userId) st with
      | none => (.invalidRefresh, st)
      | some stored =>
          if stored ≠ tok then (.invalidRefresh, st)
          else
            let tokens := generateTokenPair env now payload.userId payload.email
            (.ok tokens.1 tokens.2,
              redisSetEx st (refreshKey payload.userId) sevenDays now tokens.2)

/-- Embeds `logout` of the cache variant: 401 `Access token required` when no
bearer token accompanies the request, 401 `Invalid token` when
`verifyRefreshToken` throws, otherwise delete the subject's Redis key and
answer `Logout successful`. -/
def logoutCache (env : Env) (now : Nat) (bearer : Option Token) (st : RedisState) :
    LogoutResult × RedisState :=
  match bearer with
  | none => (.accessTokenRequired, st)
  | some tok =>
      match verifyRefreshToken env tok now with
      | .error _ => (.invalidToken, st)
      | .ok payload => (.ok, redisDel (refreshKey payload.userId) st)

/-!
Token Store, durable-record strategy: the Prisma `refreshToken` table as used
by the controller variant in `part_009` (register/login/refresh/logout plus
the Google OAuth callback).
-/

/-- A row of the Prisma `refreshToken` table: `userId`, the stored token,
and an absolute `expiresAt`. -/
structure RefreshRecord where
  userId : String
  token : Token
  expiresAt : Nat
deriving DecidableEq, Repr

abbrev RefreshDB := List RefreshRecord

/-- Embeds `prisma.refreshToken.create({ data: { userId, token, expiresAt } })`. -/
def dbCreate (db : RefreshDB) (userId : String) (tok : Token) (expiresAt : Nat) :
    RefreshDB :=
  db ++ [⟨userId, tok, expiresAt⟩]

/-- Embeds `prisma.refreshToken.deleteMany({ where: { userId } })`. -/
def dbDeleteMany (db : RefreshDB) (userId : String) : RefreshDB :=
  db.filter (fun r => r.userId ≠ userId)

/-- Embeds `prisma.refreshToken.findFirst({ where: { userId, token, expiresAt: { gt: now } } })`. -/
def dbFindFirst (db : RefreshDB) (userId : String) (tok : Token) (now : Nat) :
    Option RefreshRecord :=
  db.find? (fun r => r.userId = userId && r.token = tok && decide (now < r.expiresAt))

/-- The records the durable store holds for one subject. -/
def dbRecordsFor (db : RefreshDB) (userId : String) : RefreshDB :=
  db.filter (fun r => r.userId = userId)

/-- Embeds `register` of the durable variant (`part_009`): identical to the cache
variant up to token generation, then `prisma.refreshToken.create` with
`expiresAt` seven days out — with no prior delete for the subject. -/
def registerDurable (emailOk : String → Bool) (env : Env) (now salt : Nat)
    (newId email password name : String) (users : List User) (db : RefreshDB) :
    RegisterResult × List User × RefreshDB :=
  if ¬ registerParseOk emailOk email password name then (.validationFailed, users, db)
  else match findUserByEmail users email with
  | some _ => (.emailTaken, users, db)
  | none =>
      let user : User :=
        { id := newId, email := email, name := name,
          passwordHash := some (hashPassword salt password), googleId := none }
      let tokens := generateTokenPair env now user.id user.email
      (.ok user tokens.1 tokens.2, users ++ [user],
        dbCreate db user.id tokens.2 (now + sevenDays))

/-- Embeds `login` of the durable variant (`part_009`): credential checks as in the
cache variant, then `prisma.refreshToken.create` — again with no prior
delete for the subject. -/
def loginDurable (emailOk : String → Bool) (env : Env) (now : Nat)
    (email password : String) (users : List User) (db : RefreshDB) :
    LoginResult × RefreshDB :=
  if ¬ loginParseOk emailOk email password then (.validationFailed, db)
  else match findUserByEmail users email with
  | none => (.invalidCredentials, db)
  | some user =>
      match user.passwordHash with
      | none => (.invalidCredentials, db)
      | some h =>
          if ¬ comparePassword password h then (.invalidCredentials, db)
          else
            let tokens := generateTokenPair env now user.id user.email
            (.ok user tokens.1 tokens.2,
              dbCreate db user.id tokens.2 (now + sevenDays))

/-- Embeds `refreshToken` of the durable variant (`part_009`): verify, check the
`type` field, `findFirst` the presented token among the subject's
unexpired records, then `deleteMany` every record of the subject and
`create` the new one. -/
def refreshDurable (env : Env) (now : Nat) (tok : Token) (db : RefreshDB) :
    RefreshResult × RefreshDB :=
  match verifyRefreshToken env tok now with
  | .error _ => (.invalidRefresh, db)
  | .ok payload =>
      if payload.type ≠ .refresh then (.invalidTokenType, db)
      else match dbFindFirst db payload.userId tok now with
      | none => (.invalidRefresh, db)
      | some _ =>
          let tokens := generateTokenPair env now payload.userId payload.email
          (.ok tokens.1 tokens.2,
            dbCreate (dbDeleteMany db payload.userId) payload.userId tokens.2
              (now + sevenDays))

/-- Embeds `logout` of the durable variant (`part_009`): 401 without a bearer
token, 401 when `verifyRefreshToken` throws, otherwise `deleteMany` the
subject's records. -/
def logoutDurable (env : Env) (now : Nat) (bearer : Option Token) (db : RefreshDB) :
    LogoutResult × RefreshDB :=
  match bearer with
  | none => (.accessTokenRequired, db)
  | some tok =>
      match verifyRefreshToken env tok now with
      | .error _ => (.invalidToken, db)
      | .ok payload => (.ok, dbDeleteMany db payload.userId)

/-- Embeds `logout` of the stateless variant (`part_009`, second half): 401 without
a bearer token; any present token is acknowledged without verification or
state change. -/
def logoutStateless (bearer : Option Token) : LogoutResult :=
  match bearer with
  | none => .accessTokenRequired
  | some _ => .ok

/-!
Authentication Gate: `src/middleware/auth.ts`.
-/

inductive RejectReason
  | missingToken
  | invalidToken
  | invalidTokenType
  | unknownSubject
deriving DecidableEq, Repr

/-- The view `{ id, email }` the middleware attaches as `req.user`. -/
structure UserView where
  id : String
  email : String
deriving DecidableEq, Repr

inductive AuthOutcome
  | rejected (reason : RejectReason)
  | accepted (user : UserView)
deriving DecidableEq, Repr

/-- Embeds `authenticate` from `src/middleware/auth.ts`: extract the bearer token
(401 `Access token required` if absent), `verifyAccessToken` (a throw lands
in the catch-all 401 `Invalid token`), check that the payload kind equals `access`,
then confirm the user still exists (401 `User not found` otherwise); on
success attach `{ id, email }` and call `next()`. -/
def authenticate (env : Env) (now : Nat) (users : List User)
    (bearer : Option Token) : AuthOutcome :=
  match bearer with
  | none => .rejected .missingToken
  | some tok =>
      match verifyAccessToken env tok now with
      | .error _ => .rejected .invalidToken
      | .ok payload =>
          if payload.type ≠ .access then .rejected .invalidTokenType
          else match findUserById users payload.userId with
          | none => .rejected .unknownSubject
          | some user => .accepted ⟨user.id, user.email⟩

/-!
External Identity Linker: the Google strategy verify callback in
`src/config/passport.ts`.
-/

/-- The fields of the Google profile the callback reads: `id`, the list of
asserted email values, and the display name (absent or empty counts as
unusable, as JavaScript falsiness does). -/
structure GoogleProfile where
  id : String
  emails : List String
  displayName : Option String
deriving DecidableEq, Repr

inductive LinkError
  | noVerifiedEmail
deriving DecidableEq, Repr

/-- The characters before the first at-sign, as splitting the email on the
at-sign and taking the first part yields. -/
def takeUntilAt : List Char → List Char
  | [] => []
  | c :: cs => if c = '@' then [] else c :: takeUntilAt cs

def emailLocalPart (email : String) : String :=
  String.mk (takeUntilAt email.data)

/-- The fallback chain of the created account name: display name, else the
email local part, else the literal `User` (JavaScript falsy chaining). -/
def linkedName (displayName : Option String) (email : String) : String :=
  let localPart := emailLocalPart email
  let fallback := if localPart = "" then "User" else localPart
  match displayName with
  | none => fallback
  | some d => if d = "" then fallback else d

/-- The Google strategy verify callback: fail when the profile carries no
usable email; resolve by `googleId` first; else link by email (setting
`googleId` on the existing account); else create a new user with
`passwordHash: null`.  Returns the resolved user and the updated identity
store. -/
def googleVerify (users : List User) (newId : String) (profile : GoogleProfile) :
    Except LinkError User × List User :=
  match profile.emails.head? with
  | none => (.error .noVerifiedEmail, users)
  | some email =>
      if email = "" then (.error .noVerifiedEmail, users)
      else match findUserByGoogleId users profile.id with
      | some user => (.ok user, users)
      | none =>
          match findUserByEmail users email with
          | some user =>
              let updated := { user with googleId := some profile.id }
              (.ok updated,
                users.map (fun u => if u.id = user.id then updated else u))
          | none =>
              let newUser : User :=
                { id := newId, email := email,
                  name := linkedName profile.displayName email,
                  passwordHash := none, googleId := some profile.id }
              (.ok newUser, users ++ [newUser])

/-!
Helper lemmas.
-/

theorem jwtVerify_ok_facts {t : Token} {secret : String} {now : Nat} {p : JWTPayload}
    (h : jwtVerify t secret now = .ok p) :
    p = ⟨t.userId, t.email, t.type⟩ ∧ t.secret = secret ∧ now < t.exp := by
  unfold jwtVerify at h
  split_ifs at h with h1 h2
  exact ⟨(Except.ok.inj h).symm, not_not.mp h1, Nat.lt_of_not_le h2⟩

theorem jwtVerify_of_facts (t : Token) (secret : String) (now : Nat)
    (hsec : t.secret = secret) (hexp : now < t.exp) :
    jwtVerify t secret now = .ok ⟨t.userId, t.email, t.type⟩ := by
  unfold jwtVerify
  simp [hsec, Nat.not_le_of_lt hexp]

/-- C5: the unknown-email case, the absent-password-hash case and the
wrong-password case of the cache-variant `login` all produce the identical
caller-visible outcome: the generic `Invalid credentials` failure, with no
token pair issued and the token store untouched. -/
theorem login_failures_indistinguishable (emailOk : String → Bool) (env : Env)
    (now : Nat) (email password : String) (users : List User) (st : RedisState)
    (hparse : loginParseOk emailOk email password = true)
    (hcase : findUserByEmail users email = none
      ∨ ∃ u, findUserByEmail users email = some u ∧
          (u.passwordHash = none ∨
            ∃ h, u.passwordHash = some h ∧ comparePassword password h = false)) :
    loginCache emailOk env now email password users st = (.invalidCredentials, st) := by
  unfold loginCache
  rcases hcase with hnone | ⟨u, hu, hh | ⟨h, hh, hcmp⟩⟩
  · simp [hparse, hnone]
  · simp [hparse, hu, hh]
  · simp [hparse, hu, hh, hcmp]

/-- Witness for C5 at a concrete input (unknown email on an empty store). -/
theorem login_failures_indistinguishable_witness :
    loginParseOk (fun _ => true) "a@b.c" "pw" = true ∧
      loginCache (fun _ => true) (Env.mk "as" "rs" 900 604800) 0 "a@b.c" "pw" [] [] =
        (.invalidCredentials, []) :=
  ⟨by decide,
    login_failures_indistinguishable (fun _ => true) (Env.mk "as" "rs" 900 604800)
      0 "a@b.c" "pw" [] [] (by decide) (Or.inl rfl)⟩

/-- C6: a request whose access token passes signature, expiry and kind
checks but whose subject has no record in the Identity Store is rejected as
an unknown subject; no identity is attached and the request does not
proceed. -/
theorem gate_rejects_unknown_subject (env : Env) (now : Nat) (users : List User)
    (tok : Token) (payload : JWTPayload)
    (hverify : verifyAccessToken env tok now = .ok payload)
    (hkind : payload.type = .access)
    (hmissing : findUserById users payload.userId = none) :
    authenticate env now users (some tok) = .rejected .unknownSubject ∧
      ∀ u, authenticate env now users (some tok) ≠ .accepted u := by
  refine ⟨?_, ?_⟩ <;>
    simp [authenticate, hverify, hkind, hmissing]

/-- Witness for C6 at a concrete input: a well-formed access token for a
subject absent from the store. -/
theorem gate_rejects_unknown_subject_witness :
    verifyAccessToken (Env.mk "as" "rs" 900 604800)
        (Token.mk "ghost" "g@x.y" .access 0 900 "as") 10 =
        .ok ⟨"ghost", "g@x.y", .access⟩ ∧
      authenticate (Env.mk "as" "rs" 900 604800) 10 []
        (some (Token.mk "ghost" "g@x.y" .access 0 900 "as")) =
        .rejected .unknownSubject :=
  ⟨by rfl,
    (gate_rejects_unknown_subject (Env.mk "as" "rs" 900 604800) 10 []
      (Token.mk "ghost" "g@x.y" .access 0 900 "as") ⟨"ghost", "g@x.y", .access⟩
      (by rfl) rfl rfl).1⟩

/-- C9: a register request whose password is shorter than 8 characters
fails schema validation before any identity is created or token stored;
identity store and token store are returned unchanged. -/
theorem register_short_password_rejected (emailOk : String → Bool) (env : Env)
    (now salt : Nat) (newId email password name : String)
    (users : List User) (st : RedisState)
    (hshort : password.length < 8) :
    registerCache emailOk env now salt newId email password name users st =
      (.validationFailed, users, st) := by
  unfold registerCache registerParseOk
  simp [Nat.not_le_of_lt hshort]

/-- Witness for C9 at a concrete input: a five-character password. -/
theorem register_short_password_rejected_witness :
    ("short").length < 8 ∧
      registerCache (fun _ => true) (Env.mk "as" "rs" 900 604800) 0 0
        "u1" "a@b.c" "short" "Alice" [] [] = (.validationFailed, [], []) :=
  ⟨by decide,
    register_short_password_rejected (fun _ => true) (Env.mk "as" "rs" 900 604800)
      0 0 "u1" "a@b.c" "short" "Alice" [] [] (by decide)⟩

theorem redisGet_setEx_self (st : RedisState) (key : String) (ttl now t2 : Nat)
    (v : Token) :
    redisGet t2 key (redisSetEx st key ttl now v) =
      if t2 < now + ttl then some v else none := by
  unfold redisGet redisSetEx
  rw [List.find?_cons_of_pos _ (by simp)]

theorem dbFindFirst_rotated_none (db : RefreshDB) (uid : String)
    (newTok old : Token) (e t2 : Nat) (hne : newTok ≠ old) :
    dbFindFirst (dbCreate (dbDeleteMany db uid) uid newTok e) uid old t2 = none := by
  unfold dbFindFirst dbCreate dbDeleteMany
  rw [List.find?_eq_none]
  intro r hr
  rcases List.mem_append.mp hr with hmem | hmem
  · have hne' : ¬ (r.userId = uid) := by
      have := List.of_mem_filter hmem
      simpa using this
    simp [hne']
  · have : r = ⟨uid, newTok, e⟩ := by simpa using hmem
    subst this
    simp [hne]

theorem dbRecordsFor_rotated (db : RefreshDB) (uid : String) (newTok : Token)
    (e : Nat) :
    dbRecordsFor (dbCreate (dbDeleteMany db uid) uid newTok e) uid =
      [⟨uid, newTok, e⟩] := by
  unfold dbRecordsFor dbCreate dbDeleteMany
  rw [List.filter_append]
  have hnil : (db.filter (fun r => r.userId ≠ uid)).filter
      (fun r => decide (r.userId = uid)) = [] := by
    rw [List.filter_eq_nil_iff]
    intro r hr
    have := List.of_mem_filter hr
    simpa using this
  rw [hnil]
  simp

/-- C10: in the durable-record strategy, a successful refresh leaves exactly
one stored refresh-token record for the presented token's subject — the
newly created one — however many records existed before, because every
record of the subject is deleted before the insert. -/
theorem durable_refresh_exactly_one_record (env : Env) (now : Nat) (tok : Token)
    (db db' : RefreshDB) (a r : Token)
    (hok : refreshDurable env now tok db = (.ok a r, db')) :
    dbRecordsFor db' tok.userId = [⟨tok.userId, r, now + sevenDays⟩] := by
  unfold refreshDurable at hok
  rcases hv : verifyRefreshToken env tok now with e | payload
  · rw [hv] at hok; exact absurd hok (by simp)
  · rw [hv] at hok
    obtain ⟨hpay, hsec, hexp⟩ := jwtVerify_ok_facts hv
    subst hpay
    dsimp only at hok
    by_cases hty : tok.type ≠ TokenType.refresh
    · exact absurd hok (by simp [hty])
    · rw [if_neg hty] at hok
      rcases hf : dbFindFirst db tok.userId tok now with _ | rec
      · rw [hf] at hok; exact absurd hok (by simp)
      · rw [hf] at hok
        dsimp only [generateTokenPair] at hok
        simp only [Prod.mk.injEq, RefreshResult.ok.injEq] at hok
        obtain ⟨⟨ha, hr⟩, hdb⟩ := hok
        subst hdb
        rw [dbRecordsFor_rotated]
        rw [hr]

/-- Witness for C10 at a concrete input: two prior records for the subject,
one successful refresh, exactly one record afterwards. -/
theorem durable_refresh_exactly_one_record_witness :
    refreshDurable (Env.mk "as" "rs" 900 604800) 1
        (Token.mk "u1" "a@b.c" .refresh 0 604800 "rs")
        [⟨"u1", Token.mk "u1" "a@b.c" .refresh 0 604800 "rs", 50⟩,
         ⟨"u1", Token.mk "u1" "a@b.c" .refresh 0 99 "rs", 60⟩] =
      (.ok (Token.mk "u1" "a@b.c" .access 1 901 "as")
        (Token.mk "u1" "a@b.c" .refresh 1 604801 "rs"),
        [⟨"u1", Token.mk "u1" "a@b.c" .refresh 1 604801 "rs", 1 + sevenDays⟩]) ∧
      dbRecordsFor
        [⟨"u1", Token.mk "u1" "a@b.c" .refresh 1 604801 "rs", 1 + sevenDays⟩] "u1" =
        [⟨"u1", Token.mk "u1" "a@b.c" .refresh 1 604801 "rs", 1 + sevenDays⟩] :=
  ⟨by rfl,
    durable_refresh_exactly_one_record (Env.mk "as" "rs" 900 604800) 1
      (Token.mk "u1" "a@b.c" .refresh 0 604800 "rs")
      [⟨"u1", Token.mk "u1" "a@b.c" .refresh 0 604800 "rs", 50⟩,
       ⟨"u1", Token.mk "u1" "a@b.c" .refresh 0 99 "rs", 60⟩]
      [⟨"u1", Token.mk "u1" "a@b.c" .refresh 1 604801 "rs", 1 + sevenDays⟩]
      (Token.mk "u1" "a@b.c" .access 1 901 "as")
      (Token.mk "u1" "a@b.c" .refresh 1 604801 "rs") (by rfl)⟩

/-- C2: in both the durable-record and the expiring-cache strategies, once a
rotate of a live refresh token succeeds, presenting the same old token to a
later refresh fails with the `Invalid refresh token` outcome, at every later
instant — the old token never validates again.  The hypothesis `t1 ≠ old.iat`
records that the rotation does not occur within the very second the old
token was signed (at equal instants `jwt.sign` reproduces the identical
token string). -/
theorem rotate_then_replay_rejected (env : Env) (old : Token) (t1 : Nat)
    (hiat : t1 ≠ old.iat) :
    (∀ st st' a r, refreshCache env t1 old st = (.ok a r, st') →
       ∀ t2, (refreshCache env t2 old st').1 = .invalidRefresh)
    ∧ (∀ db db' a r, refreshDurable env t1 old db = (.ok a r, db') →
       ∀ t2, (refreshDurable env t2 old db').1 = .invalidRefresh) := by
  have hne : generateRefreshToken env t1 old.userId old.email ≠ old := by
    intro heq
    exact hiat (congrArg Token.iat heq)
  constructor
  · intro st st' a r hok t2
    unfold refreshCache at hok
    rcases hv : verifyRefreshToken env old t1 with e | payload
    · rw [hv] at hok; exact absurd hok (by simp)
    · rw [hv] at hok
      obtain ⟨hpay, hsec, hexp⟩ := jwtVerify_ok_facts hv
      subst hpay
      dsimp only at hok
      by_cases hty : old.type ≠ TokenType.refresh
      · exact absurd hok (by simp [hty])
      rw [if_neg hty] at hok
      rcases hg : redisGet t1 (refreshKey old.userId) st with _ | stored
      · rw [hg] at hok; exact absurd hok (by simp)
      rw [hg] at hok
      dsimp only at hok
      by_cases hstored : stored ≠ old
      · exact absurd hok (by simp [hstored])
      rw [if_neg hstored] at hok
      dsimp only [generateTokenPair] at hok
      simp only [Prod.mk.injEq, RefreshResult.ok.injEq] at hok
      obtain ⟨⟨ha, hr⟩, hst⟩ := hok
      subst hst
      unfold refreshCache
      rcases hv2 : verifyRefreshToken env old t2 with e2 | p2
      · rfl
      · obtain ⟨hp2, hsec2, hexp2⟩ := jwtVerify_ok_facts hv2
        subst hp2
        dsimp only
        rw [if_neg hty]
        rw [redisGet_setEx_self]
        by_cases hlt : t2 < t1 + sevenDays
        · rw [if_pos hlt]
          dsimp only
          rw [if_pos hne]
        · rw [if_neg hlt]
  · intro db db' a r hok t2
    unfold refreshDurable at hok
    rcases hv : verifyRefreshToken env old t1 with e | payload
    · rw [hv] at hok; exact absurd hok (by simp)
    · rw [hv] at hok
      obtain ⟨hpay, hsec, hexp⟩ := jwtVerify_ok_facts hv
      subst hpay
      dsimp only at hok
      by_cases hty : old.type ≠ TokenType.refresh
      · exact absurd hok (by simp [hty])
      rw [if_neg hty] at hok
      rcases hf : dbFindFirst db old.userId old t1 with _ | rec
      · rw [hf] at hok; exact absurd hok (by simp)
      rw [hf] at hok
      dsimp only [generateTokenPair] at hok
      simp only [Prod.mk.injEq, RefreshResult.ok.injEq] at hok
      obtain ⟨⟨ha, hr⟩, hdb⟩ := hok
      subst hdb
      unfold refreshDurable
      rcases hv2 : verifyRefreshToken env old t2 with e2 | p2
      · rfl
      · obtain ⟨hp2, hsec2, hexp2⟩ := jwtVerify_ok_facts hv2
        subst hp2
        dsimp only
        rw [if_neg hty]
        rw [dbFindFirst_rotated_none db old.userId
          (generateRefreshToken env t1 old.userId old.email) old (t1 + sevenDays) t2 hne]

/-- Witness for C2 at a concrete input: a concrete successful rotation in
each strategy, replayed one second later. -/
theorem rotate_then_replay_rejected_witness :
    (1 : Nat) ≠ (Token.mk "u1" "a@b.c" .refresh 0 604800 "rs").iat ∧
      (refreshCache (Env.mk "as" "rs" 900 604800) 2
        (Token.mk "u1" "a@b.c" .refresh 0 604800 "rs")
        [⟨refreshKey "u1", Token.mk "u1" "a@b.c" .refresh 1 604801 "rs", 604801⟩]).1 =
        .invalidRefresh ∧
      (refreshDurable (Env.mk "as" "rs" 900 604800) 2
        (Token.mk "u1" "a@b.c" .refresh 0 604800 "rs")
        [⟨"u1", Token.mk "u1" "a@b.c" .refresh 1 604801 "rs", 604801⟩]).1 =
        .invalidRefresh :=
  ⟨by decide,
    (rotate_then_replay_rejected (Env.mk "as" "rs" 900 604800)
      (Token.mk "u1" "a@b.c" .refresh 0 604800 "rs") 1 (by decide)).1
      [⟨refreshKey "u1", Token.mk "u1" "a@b.c" .refresh 0 604800 "rs", 50⟩]
      [⟨refreshKey "u1", Token.mk "u1" "a@b.c" .refresh 1 604801 "rs", 604801⟩]
      (Token.mk "u1" "a@b.c" .access 1 901 "as")
      (Token.mk "u1" "a@b.c" .refresh 1 604801 "rs") (by rfl) 2,
    (rotate_then_replay_rejected (Env.mk "as" "rs" 900 604800)
      (Token.mk "u1" "a@b.c" .refresh 0 604800 "rs") 1 (by decide)).2
      [⟨"u1", Token.mk "u1" "a@b.c" .refresh 0 604800 "rs", 50⟩]
      [⟨"u1", Token.mk "u1" "a@b.c" .refresh 1 604801 "rs", 604801⟩]
      (Token.mk "u1" "a@b.c" .access 1 901 "as")
      (Token.mk "u1" "a@b.c" .refresh 1 604801 "rs") (by rfl) 2⟩

/-!
C1: the claimed at-most-one-live-record-per-subject invariant.
-/

def LoginResult.isOk : LoginResult → Bool
  | .ok _ _ _ => true
  | _ => false

/-- Counterexample to C1 as stated: in the durable-record strategy, `login`
stores its refresh token with a bare `create`, with no prior delete for the
subject.  Starting from a store already holding one live record for subject
`u1`, a successful login leaves two stored refresh-token records for `u1`. -/
theorem durable_login_leaves_two_records :
    (loginDurable (fun _ => true) (Env.mk "as" "rs" 900 604800) 10
        "a@b.c" "password123"
        [⟨"u1", "a@b.c", "Alice", some ⟨0, "password123"⟩, none⟩]
        [⟨"u1", Token.mk "u1" "a@b.c" .refresh 0 604800 "rs", 604800⟩]).1.isOk =
      true ∧
      ¬ (dbRecordsFor
          (loginDurable (fun _ => true) (Env.mk "as" "rs" 900 604800) 10
            "a@b.c" "password123"
            [⟨"u1", "a@b.c", "Alice", some ⟨0, "password123"⟩, none⟩]
            [⟨"u1", Token.mk "u1" "a@b.c" .refresh 0 604800 "rs", 604800⟩]).2
          "u1").length ≤ 1 := by
  constructor
  · rfl
  · decide

/-- At most one cache entry per key. -/
def cacheAtMostOne (st : RedisState) : Prop :=
  ∀ k, (st.filter (fun e => e.key = k)).length ≤ 1

theorem filter_and_length_le (p q : CacheEntry → Bool) (st : RedisState) :
    (st.filter (fun e => p e && q e)).length ≤ (st.filter p).length := by
  induction st with
  | nil => simp
  | cons e t ih =>
      by_cases hp : p e <;> by_cases hq : q e <;>
        simp [List.filter_cons, hp, hq] <;> omega

theorem cacheAtMostOne_setEx (st : RedisState) (key : String) (ttl now : Nat)
    (v : Token) (hst : cacheAtMostOne st) :
    cacheAtMostOne (redisSetEx st key ttl now v) := by
  intro k
  unfold redisSetEx
  by_cases hk : k = key
  · subst hk
    rw [List.filter_cons_of_pos (by simp)]
    have hnil : (st.filter (fun e => e.key ≠ k)).filter
        (fun e => decide (e.key = k)) = [] := by
      rw [List.filter_eq_nil_iff]
      intro e he
      have := List.of_mem_filter he
      simpa using this
    rw [List.filter_filter] at hnil ⊢
    rw [hnil]
    simp
  · rw [List.filter_cons_of_neg (by simp [Ne.symm hk])]
    rw [List.filter_filter]
    calc (st.filter (fun e => decide (e.key = k) && decide (e.key ≠ key))).length
        ≤ (st.filter (fun e => decide (e.key = k))).length :=
          filter_and_length_le _ _ st
      _ ≤ 1 := hst k

theorem cacheAtMostOne_del (st : RedisState) (key : String)
    (hst : cacheAtMostOne st) : cacheAtMostOne (redisDel key st) := by
  intro k
  unfold redisDel
  rw [List.filter_filter]
  calc (st.filter (fun e => decide (e.key = k) && decide (e.key ≠ key))).length
      ≤ (st.filter (fun e => decide (e.key = k))).length :=
        filter_and_length_le _ _ st
    _ ≤ 1 := hst k

/-- C1 amended: in the expiring-cache strategy, every operation that issues
or rotates a refresh token preserves at-most-one stored record per subject
key (the single per-subject key is overwritten); and in the durable-record
strategy a successful refresh leaves at most one record for the subject.
The durable-record register/login/OAuth-link operations, by contrast, create
an additional record without invalidating prior ones
(`durable_login_leaves_two_records`). -/
theorem single_refresh_record_amended (emailOk : String → Bool) (env : Env)
    (now salt : Nat) (newId email password name : String) (users : List User)
    (tok : Token) (st : RedisState) (hst : cacheAtMostOne st) :
    cacheAtMostOne
        (registerCache emailOk env now salt newId email password name users st).2.2
    ∧ cacheAtMostOne (loginCache emailOk env now email password users st).2
    ∧ cacheAtMostOne (refreshCache env now tok st).2
    ∧ ∀ db db' a r, refreshDurable env now tok db = (.ok a r, db') →
        (dbRecordsFor db' tok.userId).length ≤ 1 := by
  refine ⟨?_, ?_, ?_, ?_⟩
  · unfold registerCache
    by_cases hp : registerParseOk emailOk email password name = true
    · rw [if_neg (not_not_intro hp)]
      rcases hfind : findUserByEmail users email with _ | u
      · exact cacheAtMostOne_setEx _ _ _ _ _ hst
      · exact hst
    · rw [if_pos hp]
      exact hst
  · unfold loginCache
    by_cases hp : loginParseOk emailOk email password = true
    · rw [if_neg (not_not_intro hp)]
      rcases hfind : findUserByEmail users email with _ | u
      · exact hst
      · dsimp only
        rcases hhash : u.passwordHash with _ | hashv
        · exact hst
        · dsimp only
          by_cases hcmp : comparePassword password hashv = true
          · rw [if_neg (not_not_intro hcmp)]
            exact cacheAtMostOne_setEx _ _ _ _ _ hst
          · rw [if_pos hcmp]
            exact hst
    · rw [if_pos hp]
      exact hst
  · unfold refreshCache
    rcases hv : verifyRefreshToken env tok now with e | payload
    · exact hst
    · dsimp only
      by_cases hty : payload.type ≠ TokenType.refresh
      · rw [if_pos hty]
        exact hst
      · rw [if_neg hty]
        rcases hg : redisGet now (refreshKey payload.userId) st with _ | stored
        · exact hst
        · dsimp only
          by_cases hstored : stored ≠ tok
          · rw [if_pos hstored]
            exact hst
          · rw [if_neg hstored]
            exact cacheAtMostOne_setEx _ _ _ _ _ hst
  · intro db db' a r hok
    rw [durable_refresh_exactly_one_record env now tok db db' a r hok]
    simp

/-- Witness for the amended C1 at a concrete input (empty stores, one
register). -/
theorem single_refresh_record_amended_witness :
    cacheAtMostOne
      (registerCache (fun _ => true) (Env.mk "as" "rs" 900 604800) 0 0 "u1"
        "a@b.c" "password123" "Alice" [] []).2.2 :=
  (single_refresh_record_amended (fun _ => true) (Env.mk "as" "rs" 900 604800)
    0 0 "u1" "a@b.c" "password123" "Alice" []
    (Token.mk "u1" "a@b.c" .refresh 0 604800 "rs") []
    (by intro k; simp)).1

/-- The usable email of a Google profile: the first asserted email value,
when present and non-empty (JavaScript falsiness of the missing and empty
cases). -/
def usableEmail (profile : GoogleProfile) : Option String :=
  match profile.emails.head? with
  | none => none
  | some e => if e = "" then none else some e

/-- C7: resolution order of the External Identity Linker.  Without a usable
email the callback fails; with one, a link for the provider id resolves
directly to the linked subject regardless of the asserted email and without
touching the store; an unseen provider id with a matching email links that
account by setting its `googleId`; and when neither matches a new Identity
is created with no password hash. -/
theorem linker_provider_id_first (users : List User) (newId : String)
    (profile : GoogleProfile) :
    (usableEmail profile = none →
      googleVerify users newId profile = (.error .noVerifiedEmail, users))
    ∧ (∀ e u, usableEmail profile = some e →
        findUserByGoogleId users profile.id = some u →
        googleVerify users newId profile = (.ok u, users))
    ∧ (∀ e u, usableEmail profile = some e →
        findUserByGoogleId users profile.id = none →
        findUserByEmail users e = some u →
        (googleVerify users newId profile).1 =
          .ok { u with googleId := some profile.id })
    ∧ (∀ e, usableEmail profile = some e →
        findUserByGoogleId users profile.id = none →
        findUserByEmail users e = none →
        (googleVerify users newId profile).1 =
          .ok ⟨newId, e, linkedName profile.displayName e, none,
            some profile.id⟩) := by
  refine ⟨?_, ?_, ?_, ?_⟩
  · intro he
    unfold googleVerify
    unfold usableEmail at he
    rcases hE : profile.emails.head? with _ | e0
    · rfl
    · rw [hE] at he
      dsimp only at he
      by_cases h0 : e0 = ""
      · dsimp only
        rw [if_pos h0]
      · rw [if_neg h0] at he; cases he
  · intro e u he hg
    unfold googleVerify
    unfold usableEmail at he
    rcases hE : profile.emails.head? with _ | e0
    · rw [hE] at he
      dsimp only at he
      cases he
    · rw [hE] at he
      dsimp only at he
      by_cases h0 : e0 = ""
      · rw [if_pos h0] at he; cases he
      · rw [if_neg h0] at he
        obtain rfl := Option.some.inj he
        dsimp only
        rw [if_neg h0, hg]
  · intro e u he hg hf
    unfold googleVerify
    unfold usableEmail at he
    rcases hE : profile.emails.head? with _ | e0
    · rw [hE] at he
      dsimp only at he
      cases he
    · rw [hE] at he
      dsimp only at he
      by_cases h0 : e0 = ""
      · rw [if_pos h0] at he; cases he
      · rw [if_neg h0] at he
        obtain rfl := Option.some.inj he
        dsimp only
        rw [if_neg h0, hg, hf]
  · intro e he hg hf
    unfold googleVerify
    unfold usableEmail at he
    rcases hE : profile.emails.head? with _ | e0
    · rw [hE] at he
      dsimp only at he
      cases he
    · rw [hE] at he
      dsimp only at he
      by_cases h0 : e0 = ""
      · rw [if_pos h0] at he; cases he
      · rw [if_neg h0] at he
        obtain rfl := Option.some.inj he
        dsimp only
        rw [if_neg h0, hg, hf]

/-- Witness for C7 at concrete inputs exercising all four branches of the
linker. -/
theorem linker_provider_id_first_witness :
    googleVerify [] "n1" (GoogleProfile.mk "g1" [] none) =
        (.error .noVerifiedEmail, []) ∧
      googleVerify [⟨"u1", "old@x", "Alice", none, some "g1"⟩] "n1"
          (GoogleProfile.mk "g1" ["new@x"] (some "N")) =
        (.ok ⟨"u1", "old@x", "Alice", none, some "g1"⟩,
          [⟨"u1", "old@x", "Alice", none, some "g1"⟩]) ∧
      (googleVerify [⟨"u2", "e@x", "Bob", some ⟨0, "pw"⟩, none⟩] "n1"
          (GoogleProfile.mk "g2" ["e@x"] (some "Bobby"))).1 =
        .ok ⟨"u2", "e@x", "Bob", some ⟨0, "pw"⟩, some "g2"⟩ ∧
      (googleVerify [] "n1" (GoogleProfile.mk "g3" ["n@x"] none)).1 =
        .ok ⟨"n1", "n@x", linkedName none "n@x", none, some "g3"⟩ ∧
      linkedName none "n@x" = "n" :=
  ⟨(linker_provider_id_first [] "n1" (GoogleProfile.mk "g1" [] none)).1 rfl,
    (linker_provider_id_first [⟨"u1", "old@x", "Alice", none, some "g1"⟩] "n1"
      (GoogleProfile.mk "g1" ["new@x"] (some "N"))).2.1 "new@x"
      ⟨"u1", "old@x", "Alice", none, some "g1"⟩ rfl (by rfl),
    (linker_provider_id_first [⟨"u2", "e@x", "Bob", some ⟨0, "pw"⟩, none⟩] "n1"
      (GoogleProfile.mk "g2" ["e@x"] (some "Bobby"))).2.2.1 "e@x"
      ⟨"u2", "e@x", "Bob", some ⟨0, "pw"⟩, none⟩ rfl (by rfl) (by rfl),
    (linker_provider_id_first [] "n1" (GoogleProfile.mk "g3" ["n@x"] none)).2.2.2
      "n@x" rfl rfl rfl, by decide⟩

/-- Counterexample to C8 as stated: logout does fail the caller-visible
flow.  With no bearer token every strategy answers 401
`Access token required`; with a (valid) access token the cache strategy
answers 401 `Invalid token`, because `logout` verifies the bearer against
the refresh secret. -/
theorem logout_never_fails_counterexample :
    (logoutCache (Env.mk "as" "rs" 900 604800) 0 none []).1 =
        .accessTokenRequired ∧
      (logoutCache (Env.mk "as" "rs" 900 604800) 5
        (some (generateAccessToken (Env.mk "as" "rs" 900 604800) 0 "u1" "a@b.c"))
        []).1 = .invalidToken ∧
      (logoutDurable (Env.mk "as" "rs" 900 604800) 0 none []).1 =
        .accessTokenRequired ∧
      logoutStateless none = .accessTokenRequired :=
  ⟨rfl, rfl, rfl, rfl⟩

/-- C8 amended: logout fails with 401 `Access token required` when the
request carries no bearer token (all three strategies), and — in the
durable and cache strategies — with 401 `Invalid token` when the bearer
does not verify as a refresh token; it succeeds when the bearer verifies
with the refresh secret, and under the stateless strategy whenever any
bearer token is present. -/
theorem logout_behaviour_amended (env : Env) (now : Nat) (tok : Token)
    (st : RedisState) (db : RefreshDB) :
    logoutCache env now none st = (.accessTokenRequired, st)
    ∧ logoutDurable env now none db = (.accessTokenRequired, db)
    ∧ logoutStateless none = .accessTokenRequired
    ∧ (∀ e, verifyRefreshToken env tok now = .error e →
        logoutCache env now (some tok) st = (.invalidToken, st)
        ∧ logoutDurable env now (some tok) db = (.invalidToken, db))
    ∧ (∀ p, verifyRefreshToken env tok now = .ok p →
        (logoutCache env now (some tok) st).1 = .ok
        ∧ (logoutDurable env now (some tok) db).1 = .ok)
    ∧ logoutStateless (some tok) = .ok := by
  refine ⟨rfl, rfl, rfl, ?_, ?_, rfl⟩
  · intro e he
    constructor <;> simp [logoutCache, logoutDurable, he]
  · intro p hp
    constructor <;> simp [logoutCache, logoutDurable, hp]

/-- Witness for the amended C8 at concrete inputs: a verifying refresh
token succeeds, a wrongly-signed token fails. -/
theorem logout_behaviour_amended_witness :
    (logoutCache (Env.mk "as" "rs" 900 604800) 1
        (some (Token.mk "u1" "a@b.c" .refresh 0 604800 "rs")) []).1 = .ok ∧
      logoutCache (Env.mk "as" "rs" 900 604800) 1
        (some (Token.mk "u1" "a@b.c" .access 0 900 "as")) [] =
        (.invalidToken, []) :=
  ⟨((logout_behaviour_amended (Env.mk "as" "rs" 900 604800) 1
      (Token.mk "u1" "a@b.c" .refresh 0 604800 "rs") [] []).2.2.2.2.1
      ⟨"u1", "a@b.c", .refresh⟩ (by rfl)).1,
    ((logout_behaviour_amended (Env.mk "as" "rs" 900 604800) 1
      (Token.mk "u1" "a@b.c" .access 0 900 "as") [] []).2.2.2.1
      .invalidSignature (by rfl)).1⟩
